import Mathlib

/-!
Verification of the client bootstrap and workspace-resolution sequence of the
`jira-assets-api-client` package.

The development shallowly embeds the TypeScript source:

* `extractInstanceFromUrl` embeds the regex search
  `url.match(/https:\/\/([^.]+)\.atlassian\.net/)` from `src/index.ts`;
* `discoverWorkspaceId` embeds the discovery call's response handling;
* `applyConfig` / `configureClient` / `configureIndexClient` embed the
  mutation of the generated client's `OpenAPI` configuration object in
  `src/prebuild.ts` (`configureClient`) and in `src/index.ts` (inline block);
* `runFallbackInterceptor` embeds the endpoint-fallback request interceptor;
* `initAssetsApiClient` embeds the orchestration in `src/index.ts`, with
  the file system, the transport layer and the dynamic import supplied as
  explicit parameters, and with the list of issued network calls returned
  alongside the result.

JavaScript `string | undefined` values are `Option String`; JS truthiness
(`undefined` and `""` are falsy) is `jsTruthy`.
-/

namespace JiraAssets

abbrev Str := List Char

/-- `stripPrefixL pat s` returns `some rest` when `s = pat ++ rest`. -/
def stripPrefixL : Str → Str → Option Str
  | [], s => some s
  | _ :: _, [] => none
  | p :: pt, c :: t => if p = c then stripPrefixL pt t else none

/-- JS `s.includes(pat)`: does `pat` occur as a contiguous substring of `s`? -/
def containsSub (pat : Str) : Str → Bool
  | [] => pat.isPrefixOf []
  | s@(_ :: t) => pat.isPrefixOf s || containsSub pat t

/-- JS `s.replace(pat, rep)` with a string pattern: replace the first
occurrence of `pat` in `s` by `rep`; if `pat` does not occur, `s` is
returned unchanged. -/
def replaceFirstL (pat rep : Str) : Str → Str
  | [] => if pat.isPrefixOf [] then rep else []
  | s@(c :: t) =>
    if pat.isPrefixOf s then rep ++ s.drop pat.length
    else c :: replaceFirstL pat rep t

/-- String-level wrapper for `containsSub`. -/
def includesSub (s pat : String) : Bool := containsSub pat.data s.data

/-- String-level wrapper for `replaceFirstL`. -/
def replaceFirst (s pat rep : String) : String :=
  String.mk (replaceFirstL pat.data rep.data s.data)

/-! ### The instance-extraction regex

`src/index.ts`:
```
function extractInstanceFromUrl(url: string): string | undefined {
  const match = url.match(/https:\/\/([^.]+)\.atlassian\.net/);
  return match ? match[1] : undefined;
}
```
The regex has no anchors, so `match` scans the string left to right and
returns the first position where `https://` is followed by a non-empty
dot-free run and then literally `.atlassian.net`; the captured group is the
dot-free run.  Because `[^.]+` is a maximal dot-free run followed by a
literal `.`, greedy matching admits no backtracking, so matching at one
position is exactly `matchAtPos` below. -/

def httpsChars : Str := "https://".data

def atlassianSuffix : Str := ".atlassian.net".data

/-- Attempt the regex `https:\/\/([^.]+)\.atlassian\.net` at the head of
`s`; return the captured group on success. -/
def matchAtPos (s : Str) : Option Str :=
  match stripPrefixL httpsChars s with
  | none => none
  | some rest =>
    let inst := rest.takeWhile (fun c => c != '.')
    if inst.isEmpty then none
    else if atlassianSuffix.isPrefixOf (rest.dropWhile (fun c => c != '.')) then
      some inst
    else none

/-- Scan all start positions left to right, returning the first capture. -/
def scanMatch : Str → Option Str
  | [] => none
  | s@(_ :: t) =>
    match matchAtPos s with
    | some r => some r
    | none => scanMatch t

/-- `extractInstanceFromUrl` from `src/index.ts` (also duplicated in
`src/prebuild.ts`). -/
def extractInstanceFromUrl (url : String) : Option String :=
  (scanMatch url.data).map String.mk

/-! ### Base64 and the Basic authorization header

`Buffer.from(str).toString('base64')` on a JS string UTF-8-encodes it and
base64-encodes the bytes. -/

/-- UTF-8 encoding of one character, as byte values. -/
def utf8Bytes (c : Char) : List Nat :=
  let n := c.toNat
  if n < 0x80 then [n]
  else if n < 0x800 then [0xC0 + n / 64, 0x80 + n % 64]
  else if n < 0x10000 then [0xE0 + n / 4096, 0x80 + (n / 64) % 64, 0x80 + n % 64]
  else [0xF0 + n / 262144, 0x80 + (n / 4096) % 64, 0x80 + (n / 64) % 64, 0x80 + n % 64]

def base64Alphabet : Str :=
  "ABCDEFGHIJKLMNOPQRSTUVWXYZabcdefghijklmnopqrstuvwxyz0123456789+/".data

def b64Char (n : Nat) : Char := base64Alphabet.getD n 'A'

/-- Base64-encode a byte list, three bytes at a time, with `=` padding. -/
def base64Chunks : List Nat → Str
  | [] => []
  | [b1] => [b64Char (b1 / 4), b64Char (b1 % 4 * 16), '=', '=']
  | [b1, b2] => [b64Char (b1 / 4), b64Char (b1 % 4 * 16 + b2 / 16), b64Char (b2 % 16 * 4), '=']
  | b1 :: b2 :: b3 :: rest =>
    b64Char (b1 / 4) :: b64Char (b1 % 4 * 16 + b2 / 16) ::
      b64Char (b2 % 16 * 4 + b3 / 64) :: b64Char (b3 % 64) :: base64Chunks rest

/-- `Buffer.from(s).toString('base64')`. -/
def base64Of (s : String) : String := String.mk (base64Chunks (s.data.flatMap utf8Bytes))

/-- The `Authorization` header value built in `configureClient` and
`discoverWorkspaceId`. -/
def basicAuthHeader (email apiToken : String) : String :=
  "Basic " ++ base64Of (email ++ ":" ++ apiToken)

/-! ### Options, environment and configuration resolution -/

/-- JS truthiness of a `string | undefined` value: `undefined` and `""` are
falsy, every other string is truthy. -/
def jsTruthy : Option String → Bool
  | none => false
  | some s => s != ""

/-- JS `a || b` where `a : string | undefined` and `b` is a string. -/
def orFalsy (a : Option String) (b : String) : String :=
  match a with
  | some s => if s != "" then s else b
  | none => b

/-- JS `a || b` where both operands are `string | undefined`. -/
def orFalsyOpt (a b : Option String) : Option String :=
  match a with
  | some s => if s != "" then some s else b
  | none => b

/-- `AssetsApiClientOptions` from `src/index.ts`; `none` is an absent
(`undefined`) field. -/
structure AssetsApiClientOptions where
  baseUrl : Option String := none
  instanceName : Option String := none
  email : Option String := none
  apiToken : Option String := none
  workspaceId : Option String := none
  specFile : Option String := none
  outputDir : Option String := none
  regenerate : Option Bool := none
deriving DecidableEq

/-- The environment variables read by `initAssetsApiClient`. -/
structure Env where
  ASSETS_BASE_URL : Option String := none
  ASSETS_API_TOKEN : Option String := none
  JIRA_EMAIL : Option String := none
  JIRA_INSTANCE : Option String := none
  JIRA_WORKSPACE_ID : Option String := none
  ASSETS_SPEC_FILE : Option String := none
  ASSETS_OUTPUT_DIR : Option String := none
deriving DecidableEq

/-- `baseUrl = process.env.ASSETS_BASE_URL || 'https://api.atlassian.com/assets'`
(destructuring default, applied only when the option field is absent). -/
def resolvedBaseUrl (o : AssetsApiClientOptions) (env : Env) : String :=
  match o.baseUrl with
  | some s => s
  | none => orFalsy env.ASSETS_BASE_URL "https://api.atlassian.com/assets"

/-- `apiToken = process.env.ASSETS_API_TOKEN`. -/
def resolvedApiToken (o : AssetsApiClientOptions) (env : Env) : Option String :=
  match o.apiToken with
  | some s => some s
  | none => env.ASSETS_API_TOKEN

/-- `email = process.env.JIRA_EMAIL`. -/
def resolvedEmail (o : AssetsApiClientOptions) (env : Env) : Option String :=
  match o.email with
  | some s => some s
  | none => env.JIRA_EMAIL

/-- `instance = process.env.JIRA_INSTANCE || extractInstanceFromUrl(baseUrl)`. -/
def resolvedInstance (o : AssetsApiClientOptions) (env : Env) : Option String :=
  match o.instanceName with
  | some s => some s
  | none => orFalsyOpt env.JIRA_INSTANCE (extractInstanceFromUrl (resolvedBaseUrl o env))

/-- `workspaceId = process.env.JIRA_WORKSPACE_ID`. -/
def resolvedWorkspaceIdOpt (o : AssetsApiClientOptions) (env : Env) : Option String :=
  match o.workspaceId with
  | some s => some s
  | none => env.JIRA_WORKSPACE_ID

/-- `specFile = process.env.ASSETS_SPEC_FILE || 'assets-openapi.json'`. -/
def resolvedSpecFile (o : AssetsApiClientOptions) (env : Env) : String :=
  match o.specFile with
  | some s => s
  | none => orFalsy env.ASSETS_SPEC_FILE "assets-openapi.json"

/-- `regenerate = false`. -/
def resolvedRegenerate (o : AssetsApiClientOptions) : Bool :=
  match o.regenerate with
  | some b => b
  | none => false

/-! ### Workspace discovery -/

/-- One element of the discovery response's `values` array; only its
`workspaceId` attribute is read. -/
structure WorkspaceEntry where
  workspaceId : String
deriving DecidableEq

/-- The discovery response body (`response.data`); `values` may be absent. -/
structure DiscoveryData where
  values : Option (List WorkspaceEntry)
deriving DecidableEq

/-- Outcome of the `axios.get` transport call: a response (whose body may be
absent) or a transport/HTTP error carrying the axios error message. -/
inductive AxiosResult where
  | success (data : Option DiscoveryData)
  | axiosError (message : String)
deriving DecidableEq

/-- The URL templated in `discoverWorkspaceId`. -/
def discoveryEndpoint (inst : String) : String :=
  "https://" ++ inst ++ ".atlassian.net/rest/servicedeskapi/insight/workspace"

/-- The fixed headers sent with the discovery request. -/
def discoveryAuthHeaders (email apiToken : String) : List (String × String) :=
  [("Authorization", basicAuthHeader email apiToken),
   ("Content-Type", "application/json"),
   ("Accept", "application/json")]

/-- `discoverWorkspaceId` from `src/index.ts`, with the axios transport
passed in as a function from (url, headers) to the call's outcome.  The
`No workspace found` error thrown inside the `try` is not an axios error,
so the `catch` rethrows it unchanged; axios errors are wrapped. -/
def discoverWorkspaceId (transport : String → List (String × String) → AxiosResult)
    (inst email apiToken : String) : Except String String :=
  match transport (discoveryEndpoint inst) (discoveryAuthHeaders email apiToken) with
  | .success d =>
    match d with
    | some dd =>
      match dd.values with
      | some (v :: _) => .ok v.workspaceId
      | some [] => .error "No workspace found in the response"
      | none => .error "No workspace found in the response"
    | none => .error "No workspace found in the response"
  | .axiosError msg => .error ("Failed to discover workspace ID: " ++ msg)

/-! ### The generated client's configuration object -/

/-- A fallback interceptor installed into `REQUEST_INTERCEPTORS`; the
closure captures the `instance` name, which is all its behaviour depends
on (its dynamics are `runFallbackInterceptor`). -/
structure FallbackInterceptor where
  inst : String
deriving DecidableEq

/-- The mutable `OpenAPI` configuration object of the generated client.
`extra` stands for every field the configurator never touches. -/
structure OpenAPIConfig (ε : Type) where
  BASE : String
  WITH_CREDENTIALS : Bool
  CREDENTIALS : String
  HEADERS : List (String × String)
  REQUEST_INTERCEPTORS : List FallbackInterceptor
  extra : ε
deriving DecidableEq

/-- The generated client handle: possibly an `OpenAPI` configuration
object (absent when the imported module lacks the expected shape). -/
structure GeneratedClient (ε : Type) where
  OpenAPI : Option (OpenAPIConfig ε)
deriving DecidableEq

/-- The workspace-scoped base URL template. -/
def workspaceScopedBase (w : String) : String :=
  "https://api.atlassian.com/jsm/insight/workspace/" ++ w ++ "/v1"

/-- The assignments performed on `client.OpenAPI` by `configureClient` in
`src/prebuild.ts` and by the inline block of `initAssetsApiClient` in
`src/index.ts` (the two blocks are textually identical). -/
def applyConfig (cfg : OpenAPIConfig ε) (baseUrl email apiToken : String)
    (inst rwid : Option String) : OpenAPIConfig ε :=
  { cfg with
    BASE := if jsTruthy rwid then workspaceScopedBase (rwid.getD "") else baseUrl
    WITH_CREDENTIALS := true
    CREDENTIALS := "include"
    HEADERS :=
      [("Authorization", basicAuthHeader email apiToken),
       ("Content-Type", "application/json"),
       ("Accept", "application/json")]
    REQUEST_INTERCEPTORS :=
      if jsTruthy inst && jsTruthy rwid then [⟨inst.getD ""⟩]
      else cfg.REQUEST_INTERCEPTORS }

/-- Initialization errors, following the throw sites. -/
inductive InitError where
  | configurationError (msg : String)
  | importError (msg : String)
  | configuratorError (msg : String)
deriving DecidableEq

/-- `configureClient` from `src/prebuild.ts`: throws when the client lacks
the `OpenAPI` configuration object, otherwise mutates it. -/
def configureClient (client : GeneratedClient ε) (baseUrl email apiToken : String)
    (inst rwid : Option String) : Except InitError (GeneratedClient ε) :=
  match client.OpenAPI with
  | none => .error (.configuratorError "Invalid client: OpenAPI configuration not found")
  | some cfg => .ok { client with OpenAPI := some (applyConfig cfg baseUrl email apiToken inst rwid) }

/-- The inline configuration block of `initAssetsApiClient` in
`src/index.ts`: `if (generatedClient.OpenAPI) { ... }` — when the config
object is absent the block is skipped and the client returned as-is. -/
def configureIndexClient (client : GeneratedClient ε) (baseUrl email apiToken : String)
    (inst rwid : Option String) : GeneratedClient ε :=
  match client.OpenAPI with
  | none => client
  | some cfg => { client with OpenAPI := some (applyConfig cfg baseUrl email apiToken inst rwid) }

/-! ### The fallback interceptor's dynamics

```
async (request) => {
  const originalUrl = request.url;
  try { return await request; }
  catch (error) {
    if (originalUrl.includes('api.atlassian.com')) {
      request.url = originalUrl.replace('https://api.atlassian.com',
                                        `https://${instance}.atlassian.net`);
    } else {
      request.url = originalUrl.replace(`https://${instance}.atlassian.net`,
                                        'https://api.atlassian.com');
    }
    return await request;
  }
}
```
Submitting a request with a given URL is the black-box transport, modelled
as `exec : String → Except E R`.  Alongside the result we return the list
of URLs actually submitted, in order. -/

/-- The rewritten URL chosen by the interceptor's `catch` branch. -/
def altUrl (inst url : String) : String :=
  if includesSub url "api.atlassian.com" then
    replaceFirst url "https://api.atlassian.com" ("https://" ++ inst ++ ".atlassian.net")
  else
    replaceFirst url ("https://" ++ inst ++ ".atlassian.net") "https://api.atlassian.com"

/-- Run one fallback interceptor around a request to `url`: submit, and on
failure submit once more at `altUrl`; the second outcome, success or
failure, is returned as-is. -/
def runFallbackInterceptor (i : FallbackInterceptor) (exec : String → Except E R)
    (url : String) : Except E R × List String :=
  match exec url with
  | .ok r => (.ok r, [url])
  | .error _ => (exec (altUrl i.inst url), [url, altUrl i.inst url])

/-! ### The initialization orchestrator (`src/index.ts`) -/

/-- A network request issued during initialization. -/
inductive NetCall where
  | discovery (url : String)
  | specDownload (url : String)
deriving DecidableEq

/-- The URL hard-coded in `downloadAssetsSpec`. -/
def specDownloadUrl : String := "https://dac-static.atlassian.com/cloud/assets/swagger.v3.json"

/-- Everything `initAssetsApiClient` interacts with besides its options:
the process environment, the axios transport for the discovery call, the
file-system probes (`fs.existsSync` on the generated index and on the spec
file), and the outcome of dynamically importing the generated client. -/
structure InitContext (ε : Type) where
  env : Env
  transport : String → List (String × String) → AxiosResult
  clientExists : Bool
  specExists : Bool
  importResult : Except String (GeneratedClient ε)

/-- `!resolvedWorkspaceId && instance`: the guard on the discovery step. -/
def attemptsDiscovery (o : AssetsApiClientOptions) (env : Env) : Bool :=
  !jsTruthy (resolvedWorkspaceIdOpt o env) && jsTruthy (resolvedInstance o env)

/-- `resolvedWorkspaceId` after the (optional) discovery step: populated on
success, left at its previous (falsy) value when discovery fails. -/
def finalWorkspaceId (o : AssetsApiClientOptions) (ctx : InitContext ε) : Option String :=
  if attemptsDiscovery o ctx.env then
    match
      discoverWorkspaceId ctx.transport ((resolvedInstance o ctx.env).getD "")
        ((resolvedEmail o ctx.env).getD "") ((resolvedApiToken o ctx.env).getD "") with
    | .ok w => some w
    | .error _ => resolvedWorkspaceIdOpt o ctx.env
  else resolvedWorkspaceIdOpt o ctx.env

def apiTokenRequiredMsg : String :=
  "API token is required. Provide it via options.apiToken or ASSETS_API_TOKEN environment variable."

def emailRequiredMsg : String :=
  "Email is required for JSM Insight API. Provide it via options.email or JIRA_EMAIL environment variable."

/-- `initAssetsApiClient` from `src/index.ts`: resolve, validate, discover
(non-fatally), regenerate/download if needed, import, configure.  Returns
the result together with the network calls issued, in order. -/
def initAssetsApiClient (o : AssetsApiClientOptions) (ctx : InitContext ε) :
    Except InitError (GeneratedClient ε) × List NetCall :=
  let env := ctx.env
  let baseUrl := resolvedBaseUrl o env
  let apiToken := resolvedApiToken o env
  let email := resolvedEmail o env
  let inst := resolvedInstance o env
  if !jsTruthy apiToken then
    (.error (.configurationError apiTokenRequiredMsg), [])
  else if !jsTruthy email then
    (.error (.configurationError emailRequiredMsg), [])
  else
    let rwid := finalWorkspaceId o ctx
    let discCalls : List NetCall :=
      if attemptsDiscovery o env then [.discovery (discoveryEndpoint (inst.getD ""))] else []
    let regen := resolvedRegenerate o
    let genCalls : List NetCall :=
      if regen || !ctx.clientExists then
        if regen || !ctx.specExists then [.specDownload specDownloadUrl] else []
      else []
    match ctx.importResult with
    | .error msg =>
      (.error (.importError ("Error configuring generated client: Failed to import generated client: " ++ msg)),
       discCalls ++ genCalls)
    | .ok c0 =>
      (.ok (configureIndexClient c0 baseUrl (email.getD "") (apiToken.getD "") inst rwid),
       discCalls ++ genCalls)

/-! ### Fixtures used by the concrete witnesses -/

def wCfg : OpenAPIConfig Unit :=
  { BASE := "orig", WITH_CREDENTIALS := false, CREDENTIALS := "omit",
    HEADERS := [("X-Old", "1")], REQUEST_INTERCEPTORS := [], extra := () }

def wOptions : AssetsApiClientOptions :=
  { apiToken := some "t", email := some "e@x", workspaceId := some "W9",
    baseUrl := some "https://example.com/api" }

def wCtx : InitContext Unit :=
  { env := {}, transport := fun _ _ => .axiosError "offline",
    clientExists := true, specExists := true, importResult := .ok ⟨some wCfg⟩ }

def wOptsDisc : AssetsApiClientOptions :=
  { apiToken := some "t", email := some "e@x", instanceName := some "acme" }

def wCtxDisc : InitContext Unit :=
  { env := {}, transport := fun _ _ => .success (some ⟨some []⟩),
    clientExists := true, specExists := true, importResult := .ok ⟨some wCfg⟩ }

def wOptsAcme : AssetsApiClientOptions :=
  { baseUrl := some "https://acme.atlassian.net/rest/assets/1.0" }

/-! ### Sanity checks on concrete inputs -/

example : extractInstanceFromUrl "https://acme.atlassian.net/rest/assets/1.0" = some "acme" := by
  decide

example : extractInstanceFromUrl "https://a.b.atlassian.net/x" = none := by decide

example : extractInstanceFromUrl "http://acme.atlassian.net/x" = none := by decide

example : extractInstanceFromUrl "https://api.atlassian.com/assets" = none := by decide

example : base64Of "a@b.c:tok" = "YUBiLmM6dG9r" := by decide

/-! ### Helper lemmas on the string primitives -/

theorem isPrefixOf_append_self (l1 l2 : Str) : l1.isPrefixOf (l1 ++ l2) = true := by
  rw [List.isPrefixOf_iff_prefix]
  exact List.prefix_append l1 l2

theorem containsSub_of_isPrefixOf {pat s : Str} (h : pat.isPrefixOf s = true) :
    containsSub pat s = true := by
  cases s with
  | nil => simpa [containsSub] using h
  | cons c t => simp [containsSub, h]

theorem containsSub_append_left (pre pat s : Str) (h : containsSub pat s = true) :
    containsSub pat (pre ++ s) = true := by
  induction pre with
  | nil => simpa using h
  | cons c pre ih => simp [containsSub, ih]

theorem replaceFirstL_at_head {pat : Str} (rep suf : Str) (h : pat ≠ []) :
    replaceFirstL pat rep (pat ++ suf) = rep ++ suf := by
  cases pat with
  | nil => exact absurd rfl h
  | cons p pt =>
    have hpre := isPrefixOf_append_self (p :: pt) suf
    have hdrop := List.drop_left (p :: pt) suf
    simp only [List.cons_append] at hpre hdrop ⊢
    rw [replaceFirstL, if_pos hpre, List.length_cons]
    rw [List.length_cons] at hdrop
    rw [hdrop]

/-- Replacing a prefix: `(pre ++ path).replace(pre, rep) = rep ++ path`. -/
theorem replaceFirst_at_head (pre path rep : String) (h : pre.data ≠ []) :
    replaceFirst (pre ++ path) pre rep = rep ++ path := by
  unfold replaceFirst
  rw [String.data_append, replaceFirstL_at_head rep.data path.data h, ← String.data_append]

theorem includes_api_at_head (path : String) :
    includesSub ("https://api.atlassian.com" ++ path) "api.atlassian.com" = true := by
  unfold includesSub
  rw [String.data_append]
  have h1 : "https://api.atlassian.com".data = "https://".data ++ "api.atlassian.com".data := by
    decide
  rw [h1, List.append_assoc]
  exact containsSub_append_left _ _ _ (containsSub_of_isPrefixOf (isPrefixOf_append_self _ _))

/-- C1: with the fallback interceptor installed, a first failure on a URL on
the vendor generic API host gets resubmitted exactly once at the
instance-specific host with the same path suffix (and vice versa for an
instance-specific URL), the outcome of the single resubmission — including
a second failure — propagating unchanged, with no third attempt (the trace
of submitted URLs has exactly two entries). -/
theorem C1_fallback_interceptor {E R : Type} (inst path : String) (exec : String → Except E R) :
    (∀ e1 : E, exec ("https://api.atlassian.com" ++ path) = .error e1 →
      runFallbackInterceptor ⟨inst⟩ exec ("https://api.atlassian.com" ++ path) =
        (exec (("https://" ++ inst ++ ".atlassian.net") ++ path),
         ["https://api.atlassian.com" ++ path, ("https://" ++ inst ++ ".atlassian.net") ++ path]))
    ∧
    (∀ e1 : E, includesSub (("https://" ++ inst ++ ".atlassian.net") ++ path) "api.atlassian.com" = false →
      exec (("https://" ++ inst ++ ".atlassian.net") ++ path) = .error e1 →
      runFallbackInterceptor ⟨inst⟩ exec (("https://" ++ inst ++ ".atlassian.net") ++ path) =
        (exec ("https://api.atlassian.com" ++ path),
         [("https://" ++ inst ++ ".atlassian.net") ++ path, "https://api.atlassian.com" ++ path]))
    ∧
    (∀ e1 e2 : E, exec ("https://api.atlassian.com" ++ path) = .error e1 →
      exec (("https://" ++ inst ++ ".atlassian.net") ++ path) = .error e2 →
      (runFallbackInterceptor ⟨inst⟩ exec ("https://api.atlassian.com" ++ path)).1 = .error e2) := by
  have hApiData : ("https://api.atlassian.com" : String).data ≠ [] := by decide
  have hInstData : ("https://" ++ inst ++ ".atlassian.net" : String).data ≠ [] := by
    rw [String.data_append, String.data_append]
    simp
  have hAltA : altUrl inst ("https://api.atlassian.com" ++ path) =
      ("https://" ++ inst ++ ".atlassian.net") ++ path := by
    unfold altUrl
    rw [if_pos (includes_api_at_head path)]
    exact replaceFirst_at_head _ _ _ hApiData
  refine ⟨?_, ?_, ?_⟩
  · intro e1 hfail
    unfold runFallbackInterceptor
    rw [hfail, hAltA]
  · intro e1 hnoapi hfail
    have hAltB : altUrl inst (("https://" ++ inst ++ ".atlassian.net") ++ path) =
        "https://api.atlassian.com" ++ path := by
      unfold altUrl
      rw [if_neg (by simp [hnoapi])]
      exact replaceFirst_at_head _ _ _ hInstData
    unfold runFallbackInterceptor
    rw [hfail, hAltB]
  · intro e1 e2 hfail1 hfail2
    unfold runFallbackInterceptor
    rw [hfail1, hAltA, hfail2]

/-- Closed witness for C1 at `inst = "acme"`, `path = "/x"`, with a
transport that fails on both hosts. -/
theorem C1_fallback_interceptor_witness :
    runFallbackInterceptor (⟨"acme"⟩ : FallbackInterceptor)
      (fun u => if u = "https://api.atlassian.com/x" then (.error 0 : Except Nat Unit) else .error 1)
      ("https://api.atlassian.com" ++ "/x") =
      (.error 1, ["https://api.atlassian.com" ++ "/x", ("https://" ++ "acme" ++ ".atlassian.net") ++ "/x"]) := by
  have h := (C1_fallback_interceptor "acme" "/x"
    (fun u => if u = "https://api.atlassian.com/x" then (.error 0 : Except Nat Unit) else .error 1)).1
    0 (by rfl)
  exact h.trans (by rfl)

/-! ### Shared facts about the orchestrator -/

theorem init_ok {ε : Type} (o : AssetsApiClientOptions) (ctx : InitContext ε)
    (c0 : GeneratedClient ε) (cfg0 : OpenAPIConfig ε)
    (himp : ctx.importResult = .ok c0) (hcfg : c0.OpenAPI = some cfg0)
    (htok : jsTruthy (resolvedApiToken o ctx.env) = true)
    (hem : jsTruthy (resolvedEmail o ctx.env) = true) :
    (initAssetsApiClient o ctx).1 = .ok ⟨some (applyConfig cfg0 (resolvedBaseUrl o ctx.env)
      ((resolvedEmail o ctx.env).getD "") ((resolvedApiToken o ctx.env).getD "")
      (resolvedInstance o ctx.env) (finalWorkspaceId o ctx))⟩ := by
  simp [initAssetsApiClient, htok, hem, himp, configureIndexClient, hcfg]

theorem init_trace {ε : Type} (o : AssetsApiClientOptions) (ctx : InitContext ε)
    (htok : jsTruthy (resolvedApiToken o ctx.env) = true)
    (hem : jsTruthy (resolvedEmail o ctx.env) = true) :
    (initAssetsApiClient o ctx).2 =
      (if attemptsDiscovery o ctx.env then
        [NetCall.discovery (discoveryEndpoint ((resolvedInstance o ctx.env).getD ""))] else []) ++
      (if resolvedRegenerate o || !ctx.clientExists then
        if resolvedRegenerate o || !ctx.specExists then [NetCall.specDownload specDownloadUrl] else []
       else []) := by
  cases himp : ctx.importResult <;> simp [initAssetsApiClient, htok, hem, himp]

/-! ### Claims -/

/-- C4: whenever the resolved apiToken is falsy, and separately whenever the
resolved email is falsy, `initAssetsApiClient` fails with a
`ConfigurationError` and issues zero network calls. -/
theorem C4_validation_before_network {ε : Type} (o : AssetsApiClientOptions) (ctx : InitContext ε) :
    (jsTruthy (resolvedApiToken o ctx.env) = false →
      initAssetsApiClient o ctx = (.error (.configurationError apiTokenRequiredMsg), [])) ∧
    (jsTruthy (resolvedEmail o ctx.env) = false →
      ∃ m, initAssetsApiClient o ctx = (.error (.configurationError m), [])) := by
  constructor
  · intro h
    simp [initAssetsApiClient, h]
  · intro h
    by_cases h2 : jsTruthy (resolvedApiToken o ctx.env) = false
    · exact ⟨apiTokenRequiredMsg, by simp [initAssetsApiClient, h2]⟩
    · rw [Bool.not_eq_false] at h2
      exact ⟨emailRequiredMsg, by simp [initAssetsApiClient, h, h2]⟩

/-- Witness for C4: the empty options record under an empty environment. -/
theorem C4_validation_before_network_witness :
    initAssetsApiClient ({} : AssetsApiClientOptions)
      ({ env := {}, transport := fun _ _ => .axiosError "offline", clientExists := true,
         specExists := true, importResult := .ok ⟨some wCfg⟩ } : InitContext Unit) =
      (.error (.configurationError apiTokenRequiredMsg), []) :=
  (C4_validation_before_network _ _).1 rfl

/-- C5: `discoverWorkspaceId` returns the `workspaceId` of the first element
of `values` whenever that list is present and non-empty, fails exactly when
it is missing or empty or the transport reports an error, and wraps the
transport error's message rather than swallowing it. -/
theorem C5_discoverWorkspaceId_spec (t : String → List (String × String) → AxiosResult)
    (inst email tok : String) :
    (∀ (v : WorkspaceEntry) (vs : List WorkspaceEntry),
      t (discoveryEndpoint inst) (discoveryAuthHeaders email tok) = .success (some ⟨some (v :: vs)⟩) →
      discoverWorkspaceId t inst email tok = .ok v.workspaceId) ∧
    ((∃ e, discoverWorkspaceId t inst email tok = .error e) ↔
      ∀ (v : WorkspaceEntry) (vs : List WorkspaceEntry),
        t (discoveryEndpoint inst) (discoveryAuthHeaders email tok) ≠ .success (some ⟨some (v :: vs)⟩)) ∧
    (∀ m, t (discoveryEndpoint inst) (discoveryAuthHeaders email tok) = .axiosError m →
      discoverWorkspaceId t inst email tok = .error ("Failed to discover workspace ID: " ++ m)) := by
  refine ⟨?_, ⟨?_, ?_⟩, ?_⟩
  · intro v vs h
    simp [discoverWorkspaceId, h]
  · rintro ⟨e, he⟩ v vs hcontra
    simp [discoverWorkspaceId, hcontra] at he
  · intro hall
    rcases h : t (discoveryEndpoint inst) (discoveryAuthHeaders email tok) with d | m
    · rcases d with _ | ⟨vals⟩
      · exact ⟨"No workspace found in the response", by simp [discoverWorkspaceId, h]⟩
      · rcases vals with _ | ⟨_ | ⟨v, vs⟩⟩
        · exact ⟨"No workspace found in the response", by simp [discoverWorkspaceId, h]⟩
        · exact ⟨"No workspace found in the response", by simp [discoverWorkspaceId, h]⟩
        · exact absurd h (hall v vs)
    · exact ⟨"Failed to discover workspace ID: " ++ m, by simp [discoverWorkspaceId, h]⟩
  · intro m h
    simp [discoverWorkspaceId, h]

/-- Witness for C5: `values = [{W1}, {W2}]` yields `"W1"` (first element wins). -/
theorem C5_discoverWorkspaceId_spec_witness :
    discoverWorkspaceId (fun _ _ => .success (some ⟨some [⟨"W1"⟩, ⟨"W2"⟩]⟩)) "acme" "e@x" "t" =
      .ok "W1" :=
  (C5_discoverWorkspaceId_spec (fun _ _ => .success (some ⟨some [⟨"W1"⟩, ⟨"W2"⟩]⟩))
    "acme" "e@x" "t").1 ⟨"W1"⟩ [⟨"W2"⟩] rfl

/-- C10: the configuration step only touches `BASE`, `WITH_CREDENTIALS`,
`CREDENTIALS`, `HEADERS` and `REQUEST_INTERCEPTORS`; every other field of
the configuration object (`extra`) is unchanged, and `HEADERS` is replaced
wholesale with exactly the Authorization/Content-Type/Accept triple. -/
theorem C10_configuration_frame {ε : Type} (cfg : OpenAPIConfig ε)
    (baseUrl email apiToken : String) (inst rwid : Option String) :
    (applyConfig cfg baseUrl email apiToken inst rwid).extra = cfg.extra ∧
    (applyConfig cfg baseUrl email apiToken inst rwid).HEADERS =
      [("Authorization", basicAuthHeader email apiToken),
       ("Content-Type", "application/json"),
       ("Accept", "application/json")] :=
  ⟨rfl, rfl⟩

/-- C6: starting from an empty interceptor list, the configured list is
non-empty iff both the instance and the resolved workspace id are truthy. -/
theorem C6_interceptor_iff {ε : Type} (cfg : OpenAPIConfig ε)
    (baseUrl email apiToken : String) (inst rwid : Option String)
    (h : cfg.REQUEST_INTERCEPTORS = []) :
    (applyConfig cfg baseUrl email apiToken inst rwid).REQUEST_INTERCEPTORS ≠ [] ↔
      (jsTruthy inst = true ∧ jsTruthy rwid = true) := by
  rcases hi : jsTruthy inst && jsTruthy rwid with _ | _
  · rw [Bool.and_eq_false_iff] at hi
    simp only [applyConfig, Bool.false_eq_true]
    rcases hi with hi | hi <;> simp [hi, h]
  · rw [Bool.and_eq_true] at hi
    simp [applyConfig, hi.1, hi.2]

/-- Witness for C6: both present at a concrete configuration. -/
theorem C6_interceptor_iff_witness :
    ((applyConfig wCfg "b" "e@x" "t" (some "acme") (some "W9")).REQUEST_INTERCEPTORS ≠ [] ↔
      (jsTruthy (some "acme") = true ∧ jsTruthy (some "W9") = true)) :=
  C6_interceptor_iff wCfg "b" "e@x" "t" (some "acme") (some "W9") rfl

/-- C2: when a workspace id ends up resolved (truthy), the configured base
URL is the workspace-scoped template with that id substituted, regardless
of the supplied `baseUrl`; otherwise it is the resolved `baseUrl`. -/
theorem C2_base_url_selection {ε : Type} (o : AssetsApiClientOptions) (ctx : InitContext ε)
    (c0 : GeneratedClient ε) (cfg0 : OpenAPIConfig ε)
    (himp : ctx.importResult = .ok c0) (hcfg : c0.OpenAPI = some cfg0)
    (htok : jsTruthy (resolvedApiToken o ctx.env) = true)
    (hem : jsTruthy (resolvedEmail o ctx.env) = true) :
    ∃ cfg' : OpenAPIConfig ε,
      (initAssetsApiClient o ctx).1 = .ok ⟨some cfg'⟩ ∧
      (∀ w, finalWorkspaceId o ctx = some w → w ≠ "" → cfg'.BASE = workspaceScopedBase w) ∧
      (jsTruthy (finalWorkspaceId o ctx) = false → cfg'.BASE = resolvedBaseUrl o ctx.env) := by
  refine ⟨_, init_ok o ctx c0 cfg0 himp hcfg htok hem, ?_, ?_⟩
  · intro w hw hne
    simp [applyConfig, hw, jsTruthy, hne]
  · intro hf
    simp [applyConfig, hf]

/-- Witness for C2: a caller-supplied workspace id `"W9"` wins over the
supplied base URL. -/
theorem C2_base_url_selection_witness :
    ∃ cfg' : OpenAPIConfig Unit,
      (initAssetsApiClient wOptions wCtx).1 = .ok ⟨some cfg'⟩ ∧
      cfg'.BASE = workspaceScopedBase "W9" := by
  obtain ⟨cfg', h1, h2, _⟩ := C2_base_url_selection wOptions wCtx ⟨some wCfg⟩ wCfg rfl rfl rfl rfl
  exact ⟨cfg', h1, h2 "W9" rfl (by decide)⟩

/-- C3: discovery is attempted iff the resolved workspace id is falsy and
the resolved instance truthy (witnessed by the network-call trace), and a
discovery failure is non-fatal: initialization still returns a configured
client whose base URL is the resolved `baseUrl`, with the workspace id
left unset. -/
theorem C3_discovery_nonfatal {ε : Type} (o : AssetsApiClientOptions) (ctx : InitContext ε)
    (htok : jsTruthy (resolvedApiToken o ctx.env) = true)
    (hem : jsTruthy (resolvedEmail o ctx.env) = true) :
    ((∃ u, NetCall.discovery u ∈ (initAssetsApiClient o ctx).2) ↔
      (jsTruthy (resolvedWorkspaceIdOpt o ctx.env) = false ∧
       jsTruthy (resolvedInstance o ctx.env) = true)) ∧
    (∀ (c0 : GeneratedClient ε) (cfg0 : OpenAPIConfig ε) (e : String),
      ctx.importResult = .ok c0 → c0.OpenAPI = some cfg0 →
      jsTruthy (resolvedWorkspaceIdOpt o ctx.env) = false →
      discoverWorkspaceId ctx.transport ((resolvedInstance o ctx.env).getD "")
        ((resolvedEmail o ctx.env).getD "") ((resolvedApiToken o ctx.env).getD "") = .error e →
      ∃ cfg' : OpenAPIConfig ε, (initAssetsApiClient o ctx).1 = .ok ⟨some cfg'⟩ ∧
        cfg'.BASE = resolvedBaseUrl o ctx.env ∧
        jsTruthy (finalWorkspaceId o ctx) = false) := by
  constructor
  · rw [init_trace o ctx htok hem]
    have hB : ∀ u, NetCall.discovery u ∉
        (if resolvedRegenerate o || !ctx.clientExists then
          if resolvedRegenerate o || !ctx.specExists then [NetCall.specDownload specDownloadUrl]
          else []
         else []) := by
      intro u
      split
      · split <;> simp
      · simp
    cases hA : attemptsDiscovery o ctx.env
    · have hA' := hA
      rw [attemptsDiscovery, Bool.and_eq_false_iff] at hA'
      constructor
      · rintro ⟨u, hu⟩
        rw [List.mem_append] at hu
        rcases hu with hu | hu
        · simp [hA] at hu
        · exact absurd hu (hB u)
      · rintro ⟨h1, h2⟩
        rcases hA' with h | h
        · rw [h1] at h
          exact Bool.noConfusion h
        · rw [h2] at h
          exact Bool.noConfusion h
    · have hA' := hA
      rw [attemptsDiscovery, Bool.and_eq_true, Bool.not_eq_true'] at hA'
      constructor
      · intro _
        exact hA'
      · intro _
        refine ⟨discoveryEndpoint ((resolvedInstance o ctx.env).getD ""), ?_⟩
        rw [List.mem_append]
        left
        simp [hA]
  · intro c0 cfg0 e himp hcfg hwid hde
    have hfw : jsTruthy (finalWorkspaceId o ctx) = false := by
      rw [finalWorkspaceId]
      split
      · rw [hde]
        exact hwid
      · exact hwid
    refine ⟨_, init_ok o ctx c0 cfg0 himp hcfg htok hem, ?_, hfw⟩
    simp [applyConfig, hfw]

/-- Witness for C3: a discovery response `{ values: [] }` fails, the
discovery call is on the trace, and initialization still succeeds with the
fallback base URL. -/
theorem C3_discovery_nonfatal_witness :
    (∃ u, NetCall.discovery u ∈ (initAssetsApiClient wOptsDisc wCtxDisc).2) ∧
    ∃ cfg' : OpenAPIConfig Unit, (initAssetsApiClient wOptsDisc wCtxDisc).1 = .ok ⟨some cfg'⟩ ∧
      cfg'.BASE = resolvedBaseUrl wOptsDisc wCtxDisc.env ∧
      jsTruthy (finalWorkspaceId wOptsDisc wCtxDisc) = false := by
  have h := C3_discovery_nonfatal wOptsDisc wCtxDisc rfl rfl
  exact ⟨h.1.mpr ⟨rfl, rfl⟩,
    h.2 ⟨some wCfg⟩ wCfg "No workspace found in the response" rfl rfl rfl rfl⟩

/-- C7 counterexample: the claim says a client lacking the `OpenAPI`
configuration shape makes initialization fail with a `ConfiguratorError`
and never yields an unconfigured client; but `initAssetsApiClient` in
`src/index.ts` guards its configuration block with
`if (generatedClient.OpenAPI)` and, at this concrete input, returns the
unconfigured client with no error. -/
theorem C7_counterexample :
    initAssetsApiClient wOptions
      ({ env := {}, transport := fun _ _ => .axiosError "offline", clientExists := true,
         specExists := true,
         importResult := .ok ⟨(none : Option (OpenAPIConfig Unit))⟩ } : InitContext Unit) =
      (.ok ⟨none⟩, []) := rfl

/-- C7 as amended: `configureClient` (the `src/prebuild.ts` configuration
step) does fail with the `ConfiguratorError` when the client lacks the
`OpenAPI` object; the `src/index.ts` path instead skips configuration and
returns the client unchanged without error. -/
theorem C7_amended_shape_check :
    (∀ {ε : Type} (client : GeneratedClient ε) (b e t : String) (i w : Option String),
      client.OpenAPI = none →
      configureClient client b e t i w =
        .error (.configuratorError "Invalid client: OpenAPI configuration not found")) ∧
    (∀ {ε : Type} (o : AssetsApiClientOptions) (ctx : InitContext ε) (c0 : GeneratedClient ε),
      jsTruthy (resolvedApiToken o ctx.env) = true →
      jsTruthy (resolvedEmail o ctx.env) = true →
      ctx.importResult = .ok c0 → c0.OpenAPI = none →
      (initAssetsApiClient o ctx).1 = .ok c0) := by
  constructor
  · intro ε client b e t i w h
    simp [configureClient, h]
  · intro ε o ctx c0 htok hem himp h
    simp [initAssetsApiClient, htok, hem, himp, configureIndexClient, h]

/-- Witness for the amended C7 at concrete inputs. -/
theorem C7_amended_shape_check_witness :
    configureClient (⟨none⟩ : GeneratedClient Unit) "b" "e@x" "t" none none =
      .error (.configuratorError "Invalid client: OpenAPI configuration not found") ∧
    (initAssetsApiClient wOptions
      { env := {}, transport := fun _ _ => .axiosError "offline", clientExists := true,
        specExists := true, importResult := .ok (⟨none⟩ : GeneratedClient Unit) }).1 =
      .ok ⟨none⟩ :=
  ⟨C7_amended_shape_check.1 _ _ _ _ _ _ rfl,
   C7_amended_shape_check.2 wOptions _ _ rfl rfl rfl rfl⟩

/-! ### Lemmas about the regex scan -/

theorem stripPrefixL_append_self (p s : Str) : stripPrefixL p (p ++ s) = some s := by
  induction p with
  | nil => rfl
  | cons a pt ih => simp [stripPrefixL, ih]

theorem stripPrefixL_some_mem {p s r : Str} (h : stripPrefixL p s = some r) :
    ∀ c ∈ p, c ∈ s := by
  induction p generalizing s with
  | nil =>
    intro c hc
    exact absurd hc (List.not_mem_nil c)
  | cons a pt ih =>
    cases s with
    | nil => exact absurd h (by simp [stripPrefixL])
    | cons b t =>
      rw [stripPrefixL] at h
      by_cases hab : a = b
      · rw [if_pos hab] at h
        intro c hc
        rcases List.mem_cons.mp hc with hc | hc
        · rw [hc, hab]
          exact List.mem_cons_self b t
        · exact List.mem_cons_of_mem b (ih h c hc)
      · rw [if_neg hab] at h
        exact absurd h (by simp)

theorem takeWhile_no_dot (l1 r : Str) (h : '.' ∉ l1) :
    (l1 ++ '.' :: r).takeWhile (fun c => c != '.') = l1 := by
  induction l1 with
  | nil => simp
  | cons c t ih =>
    have hc : (c != '.') = true := by
      simp only [bne_iff_ne, ne_eq]
      intro e
      rw [e] at h
      exact h (List.mem_cons_self '.' t)
    have ht : '.' ∉ t := fun m => h (List.mem_cons_of_mem _ m)
    simp [List.takeWhile_cons, hc, ih ht]

theorem dropWhile_no_dot (l1 r : Str) (h : '.' ∉ l1) :
    (l1 ++ '.' :: r).dropWhile (fun c => c != '.') = '.' :: r := by
  induction l1 with
  | nil => simp
  | cons c t ih =>
    have hc : (c != '.') = true := by
      simp only [bne_iff_ne, ne_eq]
      intro e
      rw [e] at h
      exact h (List.mem_cons_self '.' t)
    have ht : '.' ∉ t := fun m => h (List.mem_cons_of_mem _ m)
    simp [List.dropWhile_cons, hc, ih ht]

theorem matchAtPos_https (rest : Str) :
    matchAtPos (httpsChars ++ rest) =
      (if (rest.takeWhile (fun c => c != '.')).isEmpty then none
       else if atlassianSuffix.isPrefixOf (rest.dropWhile (fun c => c != '.')) then
         some (rest.takeWhile (fun c => c != '.'))
       else none) := by
  rw [matchAtPos, stripPrefixL_append_self]

theorem scanMatch_cons_some {c : Char} {t r : Str} (h : matchAtPos (c :: t) = some r) :
    scanMatch (c :: t) = some r := by
  simp [scanMatch, h]

theorem scanMatch_cons_none {c : Char} {t : Str} (h : matchAtPos (c :: t) = none) :
    scanMatch (c :: t) = scanMatch t := by
  simp [scanMatch, h]

theorem matchAtPos_cons_ne_h {c : Char} (t : Str) (h : c ≠ 'h') : matchAtPos (c :: t) = none := by
  have hs : stripPrefixL httpsChars (c :: t) = none := by
    show stripPrefixL ('h' :: "ttps://".data) (c :: t) = none
    simp only [stripPrefixL]
    rw [if_neg (fun e => h e.symm)]
  rw [matchAtPos, hs]

theorem matchAtPos_none_of_noColon {s : Str} (h : ':' ∉ s) : matchAtPos s = none := by
  rw [matchAtPos]
  cases hs : stripPrefixL httpsChars s with
  | none => rfl
  | some rest => exact absurd (stripPrefixL_some_mem hs ':' (by decide)) h

theorem scanMatch_none_of_noColon {s : Str} (h : ':' ∉ s) : scanMatch s = none := by
  induction s with
  | nil => rfl
  | cons c t ih =>
    have h2 : ':' ∉ t := fun m => h (List.mem_cons_of_mem _ m)
    rw [scanMatch_cons_none (matchAtPos_none_of_noColon h)]
    exact ih h2

theorem scanMatch_https_block (X : Str) (hc : ':' ∉ X)
    (h0 : matchAtPos ('h' :: 't' :: 't' :: 'p' :: 's' :: ':' :: '/' :: '/'::X) = none) :
    scanMatch ('h' :: 't' :: 't' :: 'p' :: 's' :: ':' :: '/' :: '/'::X) = none := by
  rw [scanMatch_cons_none h0,
    scanMatch_cons_none (matchAtPos_cons_ne_h _ (by decide)),
    scanMatch_cons_none (matchAtPos_cons_ne_h _ (by decide)),
    scanMatch_cons_none (matchAtPos_cons_ne_h _ (by decide)),
    scanMatch_cons_none (matchAtPos_cons_ne_h _ (by decide)),
    scanMatch_cons_none (matchAtPos_cons_ne_h _ (by decide)),
    scanMatch_cons_none (matchAtPos_cons_ne_h _ (by decide)),
    scanMatch_cons_none (matchAtPos_cons_ne_h _ (by decide))]
  exact scanMatch_none_of_noColon hc

theorem isPrefixOf_head {a b : Char} {as bs : Str} (h : (a :: as).isPrefixOf (b :: bs) = true) :
    a = b := by
  simp only [List.isPrefixOf, Bool.and_eq_true, beq_iff_eq] at h
  exact h.1

theorem isPrefixOf_dotSplit :
    ∀ (B l2 C R : Str), '.' ∉ B → '.' ∉ l2 →
      (B ++ '.' :: C).isPrefixOf (l2 ++ '.' :: R) = true → B = l2 ∧ C.isPrefixOf R = true := by
  intro B
  induction B with
  | nil =>
    intro l2 C R _ h2 hp
    cases l2 with
    | nil =>
      refine ⟨rfl, ?_⟩
      simpa [List.isPrefixOf] using hp
    | cons a t =>
      exfalso
      simp only [List.nil_append, List.cons_append, List.isPrefixOf, Bool.and_eq_true,
        beq_iff_eq] at hp
      apply h2
      rw [hp.1]
      exact List.mem_cons_self a t
  | cons b B' ih =>
    intro l2 C R hB h2 hp
    cases l2 with
    | nil =>
      exfalso
      simp only [List.cons_append, List.nil_append, List.isPrefixOf, Bool.and_eq_true,
        beq_iff_eq] at hp
      apply hB
      rw [← hp.1]
      exact List.mem_cons_self b B'
    | cons a t =>
      simp only [List.cons_append, List.isPrefixOf, Bool.and_eq_true, beq_iff_eq] at hp
      obtain ⟨hba, hrest⟩ := hp
      have hB' : '.' ∉ B' := fun m => hB (List.mem_cons_of_mem _ m)
      have h2' : '.' ∉ t := fun m => h2 (List.mem_cons_of_mem _ m)
      obtain ⟨hBl, hC⟩ := ih t C R hB' h2' hrest
      exact ⟨by rw [hba, hBl], hC⟩

theorem matchAtPos_single_label (l1 p : Str) (h1 : l1 ≠ []) (hd : '.' ∉ l1) :
    matchAtPos (httpsChars ++ (l1 ++ ('.' :: ("atlassian.net".data ++ p)))) = some l1 := by
  rw [matchAtPos_https, takeWhile_no_dot l1 _ hd, dropWhile_no_dot l1 _ hd]
  have hne : l1.isEmpty = false := by
    cases l1
    · exact absurd rfl h1
    · rfl
  have hsuf : atlassianSuffix.isPrefixOf ('.' :: ("atlassian.net".data ++ p)) = true := by
    show List.isPrefixOf ('.' :: "atlassian.net".data) ('.' :: ("atlassian.net".data ++ p)) = true
    simp [List.isPrefixOf, isPrefixOf_append_self]
  rw [hne, hsuf]
  simp

theorem extractInstance_single_label (l1 p : Str) (h1 : l1 ≠ []) (hd : '.' ∉ l1) :
    extractInstanceFromUrl
      (String.mk (httpsChars ++ (l1 ++ ('.' :: ("atlassian.net".data ++ p))))) =
      some (String.mk l1) := by
  have hm := matchAtPos_single_label l1 p h1 hd
  have hs : scanMatch (httpsChars ++ (l1 ++ ('.' :: ("atlassian.net".data ++ p)))) = some l1 := by
    show scanMatch ('h' :: ("ttps://".data ++ (l1 ++ ('.' :: ("atlassian.net".data ++ p))))) =
      some l1
    exact scanMatch_cons_some (by exact hm)
  show (scanMatch (httpsChars ++ (l1 ++ ('.' :: ("atlassian.net".data ++ p))))).map String.mk =
    some (String.mk l1)
  rw [hs]
  rfl

theorem matchAtPos_two_labels (l1 l2 p : Str) (_h1 : l1 ≠ []) (hd1 : '.' ∉ l1)
    (_h2 : l2 ≠ []) (hd2 : '.' ∉ l2) :
    matchAtPos
      (httpsChars ++ (l1 ++ ('.' :: (l2 ++ ('.' :: ("atlassian.net".data ++ p)))))) = none := by
  rw [matchAtPos_https, takeWhile_no_dot l1 _ hd1, dropWhile_no_dot l1 _ hd1]
  have hsuf : atlassianSuffix.isPrefixOf ('.' :: (l2 ++ ('.' :: ("atlassian.net".data ++ p)))) =
      false := by
    cases hx : atlassianSuffix.isPrefixOf ('.' :: (l2 ++ ('.' :: ("atlassian.net".data ++ p)))) with
    | false => rfl
    | true =>
      exfalso
      have hx2 : ("atlassian.net".data : Str).isPrefixOf
          (l2 ++ ('.' :: ("atlassian.net".data ++ p))) = true := by
        have he : atlassianSuffix.isPrefixOf ('.' :: (l2 ++ ('.' :: ("atlassian.net".data ++ p)))) =
            (('.' : Char) == '.' &&
              ("atlassian.net".data : Str).isPrefixOf (l2 ++ ('.' :: ("atlassian.net".data ++ p)))) :=
          rfl
        rw [he] at hx
        simpa using hx
      rw [show ("atlassian.net".data : Str) = "atlassian".data ++ '.' :: "net".data by decide] at hx2
      obtain ⟨hBl, hC⟩ := isPrefixOf_dotSplit _ l2 _ _ (by decide) hd2 hx2
      have hhead : ('n' : Char) = 'a' :=
        isPrefixOf_head (show List.isPrefixOf ('n' :: "et".data)
          ('a' :: (("tlassian".data ++ '.' :: "net".data) ++ p)) = true from hC)
      exact absurd hhead (by decide)
  rw [hsuf]
  simp

theorem orFalsyOpt_falsy {a : Option String} (b : Option String) (h : jsTruthy a = false) :
    orFalsyOpt a b = b := by
  cases a with
  | none => rfl
  | some s =>
    simp only [jsTruthy] at h
    simp [orFalsyOpt, h]

/-- With `instance` absent from options and falsy in the environment, the
resolved instance is exactly what the regex extracts from the base URL. -/
theorem resolvedInstance_eq_extract (o : AssetsApiClientOptions) (env : Env)
    (hnone : o.instanceName = none) (henv : jsTruthy env.JIRA_INSTANCE = false) :
    resolvedInstance o env = extractInstanceFromUrl (resolvedBaseUrl o env) := by
  rw [resolvedInstance, hnone]
  exact orFalsyOpt_falsy _ henv

/-- C8: with no instance from options or environment, the resolved instance
is the regex-derived subdomain of the resolved base URL: for base URLs of
shape `https://{label}.atlassian.net{suffix}` (single dot-free label) it is
that label, and whenever the extraction yields nothing the instance stays
absent. -/
theorem C8_instance_derivation (o : AssetsApiClientOptions) (env : Env)
    (hnone : o.instanceName = none) (henv : jsTruthy env.JIRA_INSTANCE = false) :
    resolvedInstance o env = extractInstanceFromUrl (resolvedBaseUrl o env) ∧
    (∀ l1 p : Str, l1 ≠ [] → '.' ∉ l1 →
      resolvedBaseUrl o env =
        String.mk (httpsChars ++ (l1 ++ ('.' :: ("atlassian.net".data ++ p)))) →
      resolvedInstance o env = some (String.mk l1)) ∧
    (extractInstanceFromUrl (resolvedBaseUrl o env) = none → resolvedInstance o env = none) := by
  have hbase := resolvedInstance_eq_extract o env hnone henv
  refine ⟨hbase, ?_, ?_⟩
  · intro l1 p h1 hd hb
    rw [hbase, hb]
    exact extractInstance_single_label l1 p h1 hd
  · intro h
    rw [hbase, h]

/-- Witness for C8: `baseUrl = "https://acme.atlassian.net/rest/assets/1.0"`
resolves the instance to `"acme"`. -/
theorem C8_instance_derivation_witness : resolvedInstance wOptsAcme {} = some "acme" := by
  have h := (C8_instance_derivation wOptsAcme {} rfl rfl).2.1 "acme".data
    "/rest/assets/1.0".data (by decide) (by decide) (by decide)
  exact h

/-- C9: the extraction regex only accepts an `https` URL with exactly one
dot-free label before `.atlassian.net`: with two or more labels, or with an
`http://` scheme, it yields nothing; consequently, with no instance from
options or environment, such base URLs leave the instance absent, so
discovery is never attempted and the fallback interceptor is never
installed. -/
theorem C9_extraction_restrictive :
    (∀ l1 l2 p : Str, l1 ≠ [] → l2 ≠ [] → '.' ∉ l1 → '.' ∉ l2 →
      ':' ∉ l1 → ':' ∉ l2 → ':' ∉ p →
      extractInstanceFromUrl (String.mk
        (httpsChars ++ (l1 ++ ('.' :: (l2 ++ ('.' :: ("atlassian.net".data ++ p))))))) = none) ∧
    (∀ r : Str, ':' ∉ r →
      extractInstanceFromUrl (String.mk ('h' :: 't' :: 't' :: 'p' :: ':' :: '/' :: '/'::r)) = none) ∧
    (∀ (o : AssetsApiClientOptions) (env : Env), o.instanceName = none →
      jsTruthy env.JIRA_INSTANCE = false →
      extractInstanceFromUrl (resolvedBaseUrl o env) = none →
      resolvedInstance o env = none ∧
      attemptsDiscovery o env = false ∧
      ∀ {ε : Type} (cfg : OpenAPIConfig ε) (b e t : String) (rwid : Option String),
        (applyConfig cfg b e t (resolvedInstance o env) rwid).REQUEST_INTERCEPTORS =
          cfg.REQUEST_INTERCEPTORS) := by
  refine ⟨?_, ?_, ?_⟩
  · intro l1 l2 p h1 h2 hd1 hd2 hc1 hc2 hcp
    have hX : ':' ∉ (l1 ++ ('.' :: (l2 ++ ('.' :: ("atlassian.net".data ++ p))))) := by
      intro hm
      rcases List.mem_append.mp hm with hm | hm
      · exact hc1 hm
      · rcases List.mem_cons.mp hm with hm | hm
        · exact absurd hm (by decide)
        · rcases List.mem_append.mp hm with hm | hm
          · exact hc2 hm
          · rcases List.mem_cons.mp hm with hm | hm
            · exact absurd hm (by decide)
            · rcases List.mem_append.mp hm with hm | hm
              · exact absurd hm (by decide)
              · exact hcp hm
    have h0 : matchAtPos ('h' :: 't' :: 't' :: 'p' :: 's' :: ':' :: '/' :: '/'::
        (l1 ++ ('.' :: (l2 ++ ('.' :: ("atlassian.net".data ++ p)))))) = none := by
      exact matchAtPos_two_labels l1 l2 p h1 hd1 h2 hd2
    have hs := scanMatch_https_block _ hX h0
    show (scanMatch (httpsChars ++
      (l1 ++ ('.' :: (l2 ++ ('.' :: ("atlassian.net".data ++ p))))))).map String.mk = none
    rw [show scanMatch (httpsChars ++
        (l1 ++ ('.' :: (l2 ++ ('.' :: ("atlassian.net".data ++ p)))))) = none from hs]
    rfl
  · intro r hc
    have h0 : matchAtPos ('h' :: 't' :: 't' :: 'p' :: ':' :: '/' :: '/'::r) = none := rfl
    show (scanMatch ('h' :: 't' :: 't' :: 'p' :: ':' :: '/' :: '/'::r)).map String.mk = none
    rw [scanMatch_cons_none h0,
      scanMatch_cons_none (matchAtPos_cons_ne_h _ (by decide)),
      scanMatch_cons_none (matchAtPos_cons_ne_h _ (by decide)),
      scanMatch_cons_none (matchAtPos_cons_ne_h _ (by decide)),
      scanMatch_cons_none (matchAtPos_cons_ne_h _ (by decide)),
      scanMatch_cons_none (matchAtPos_cons_ne_h _ (by decide)),
      scanMatch_cons_none (matchAtPos_cons_ne_h _ (by decide)),
      scanMatch_none_of_noColon hc]
    rfl
  · intro o env hnone henv hex
    have hinst : resolvedInstance o env = none := by
      rw [resolvedInstance_eq_extract o env hnone henv, hex]
    refine ⟨hinst, ?_, ?_⟩
    · rw [attemptsDiscovery, hinst]
      simp [jsTruthy]
    · intro ε cfg b e t rwid
      simp [applyConfig, hinst, jsTruthy]

/-- Witness for C9 at the two-label host `https://a.b.atlassian.net` (as a
base URL it yields no instance, no discovery, no interceptor). -/
theorem C9_extraction_restrictive_witness :
    extractInstanceFromUrl (String.mk
      (httpsChars ++ (['a'] ++ ('.' :: (['b'] ++ ('.' :: ("atlassian.net".data ++ ([] : Str)))))))) =
        none ∧
    extractInstanceFromUrl (String.mk ('h' :: 't' :: 't' :: 'p' :: ':' :: '/' :: '/'::"x.atlassian.net".data)) =
        none ∧
    attemptsDiscovery { baseUrl := some "https://a.b.atlassian.net/x" } {} = false := by
  refine ⟨?_, ?_, ?_⟩
  · exact C9_extraction_restrictive.1 ['a'] ['b'] [] (by decide) (by decide) (by decide)
      (by decide) (by decide) (by decide) (by decide)
  · exact C9_extraction_restrictive.2.1 "x.atlassian.net".data (by decide)
  · exact (C9_extraction_restrictive.2.2 { baseUrl := some "https://a.b.atlassian.net/x" } {}
      rfl rfl (by decide)).2.1

end JiraAssets
